import Mathlib

/-!
Verification of the AMD AI UX installer (`installer/ux_installer/install.py`).

The installer is an effectful Python script.  We embed it shallowly: every
external effect (filesystem probes, interactive prompts, subprocess exit
codes, HTTP responses) is an input supplied by an oracle `World` record, and
the orchestrator `main` is a pure function from the parsed arguments and the
world to a `RunOutcome`: the exit value (or an unhandled Python exception),
the ordered trace of the pipeline actions it performed, the last fatal
message it logged before returning 1, and the final top-level contents of the
installation directory.

Logging (`log`) is an out-of-scope collaborator per the design: log lines are
not modelled as filesystem contents; only the final fatal message before a
`return 1` is recorded in `RunOutcome.msg`.  `os.path.join` is modelled with
the separator "/" uniformly; the separator choice is irrelevant to every
property proved here.
-/

namespace UxInstaller

/-- Python constant `CONDA_ENV_NAME` (install.py line 34). -/
def CONDA_ENV_NAME : String := "amd_ai_ux_env"

/-- Python constant `PRODUCT_NAME` (install.py line 31). -/
def PRODUCT_NAME : String := "AMD AI UX"

/-- Python `str.endswith` (ASCII-exact, as used on asset names): the suffix
characters are a suffix of the string's characters.  Defined over `List Char`
so that it evaluates inside the kernel. -/
def strEndsWith (s suf : String) : Bool :=
  suf.data.isSuffixOf s.data

/-- Python `str.lower` on the ASCII answers compared by the installer:
character-wise lowercasing, over `List Char` so that it evaluates inside the
kernel. -/
def strLower (s : String) : String :=
  ⟨s.data.map Char.toLower⟩

/-- Python `str.startswith`, over `List Char` so that it evaluates inside
the kernel. -/
def strStartsWith (s pre : String) : Bool :=
  pre.data.isPrefixOf s.data

/-- One entry of `release_info["assets"]` in the GitHub release feed JSON
(install.py lines 274-281): a file name and its download URL. -/
structure Asset where
  name : String
  browser_download_url : String
  deriving DecidableEq, Repr

/-- Oracle for the network interactions of `download_latest_wheel`
(install.py lines 243-328): `apiRaises` is true when a `requests` exception
is raised anywhere inside the `try` block (lines 266-326; the function then
falls through to `return None`), `apiStatus` is `response.status_code` of the
release-feed GET (line 269), `assets` is the feed's asset list (line 274),
`assetStatus` is `wheel_response.status_code` of the artifact GET (line 293),
and `downloadedSize` is `os.path.getsize` of the written file (line 298). -/
structure FetchEnv where
  apiRaises : Bool
  apiStatus : Nat
  assets : List Asset
  assetStatus : Nat
  downloadedSize : Nat
  deriving DecidableEq, Repr

/-- The `for asset in release_info.get("assets", []): if
asset["name"].endswith(".whl"): wheel_asset = asset; break` loop of
install.py lines 272-277: the first asset in feed order whose name ends in
".whl". -/
def findWheelAsset (assets : List Asset) : Option Asset :=
  assets.find? (fun a => strEndsWith a.name ".whl")

/-- `download_latest_wheel` (install.py lines 243-328), returning the path of
the downloaded wheel or `none` exactly when the Python function returns
`None`: feed GET not 200, no ".whl" asset, artifact GET not 200, downloaded
file smaller than 10000 bytes (lines 301-305), or a `requests` exception. -/
def download_latest_wheel (env : FetchEnv) (output_folder : String)
    (output_filename : Option String) : Option String :=
  if env.apiRaises then none
  else if env.apiStatus = 200 then
    match findWheelAsset env.assets with
    | some wheel_asset =>
      if env.assetStatus = 200 then
        if env.downloadedSize < 10000 then none
        else some (output_folder ++ "/" ++ (output_filename.getD wheel_asset.name))
      else none
    | none => none
  else none

/-- `install_wheel` (install.py lines 331-383): true iff the pip subprocess
ran and exited 0.  The oracle value is the subprocess exit code, `none`
standing for an exception while spawning or streaming (lines 381-383). -/
def install_wheel (pipExit : Option Int) : Bool :=
  match pipExit with
  | some code => code == 0
  | none => false

/-- Oracle for `install_miniconda` (install.py lines 102-199): the platform
branch, `os.path.expanduser` of "~", whether the download (or any other part
of the `try` block) raises, and the silent installer's exit code. -/
structure MinicondaEnv where
  windows : Bool
  home : String
  downloadRaises : Bool
  installerExit : Int
  deriving DecidableEq, Repr

/-- The directory `install_miniconda` installs Miniconda into.  Both platform
branches compute `os.path.join(os.path.expanduser("~"), "miniconda3")`
(install.py lines 145 and 165); the `install_dir` argument is not used. -/
def minicondaTargetPath (env : MinicondaEnv) (_install_dir : String) : String :=
  env.home ++ "/miniconda3"

/-- `install_miniconda` (install.py lines 102-199): returns
`(success, conda_executable_path)`.  On Windows the executable is
`<miniconda>/Scripts/conda.exe` (line 162), otherwise `<miniconda>/bin/conda`
(line 183); failure of the download or a non-zero installer exit yields
`(False, None)`. -/
def install_miniconda (env : MinicondaEnv) (install_dir : String) :
    Bool × Option String :=
  if env.downloadRaises then (false, none)
  else if env.installerExit == 0 then
    (if env.windows then
      (true, some (minicondaTargetPath env install_dir ++ "/Scripts/conda.exe"))
    else
      (true, some (minicondaTargetPath env install_dir ++ "/bin/conda")))
  else (false, none)

/-- `check_conda` (install.py lines 67-99): the oracle `probe` is the result
of the `where conda` / `which conda` lookup (`none` when the lookup fails or
raises); the function returns `(is_installed, conda_executable_path)`. -/
def check_conda (probe : Option String) : Bool × Option String :=
  (probe.isSome, probe)

/-- `create_conda_env` (install.py lines 202-240): true iff the
`conda create` subprocess ran and exited 0; `none` stands for an exception
(lines 238-240). -/
def create_conda_env (condaCreateExit : Option Int) : Bool :=
  match condaCreateExit with
  | some code => code == 0
  | none => false

/-- `create_shortcuts` (install.py lines 386-442): returns `True` on both
platforms unless an exception escapes the body (lines 440-442); note a
failing PowerShell subprocess is only logged (lines 423-426) and still
returns `True`, so the oracle `raises` abstracts exactly the exception
path. -/
def create_shortcuts (raises : Bool) : Bool :=
  !raises

/-- True when path `p` lies strictly inside directory `dir` (dir plus the
separator is a leading piece of `p`). -/
def isInsideDir (dir p : String) : Bool :=
  strStartsWith p (dir ++ "/")

/-- The observable pipeline actions of one run of `main`, in the order they
happen: the overwrite confirmation prompt (line 492), a `check_conda` probe
(lines 505, 520), `conda env remove` (line 507), `shutil.rmtree` plus the
recreating `os.makedirs` (lines 511-512), the Miniconda confirmation prompt
(line 526), `install_miniconda` (line 532), `create_conda_env` (line 540),
`download_latest_wheel` (line 557), `install_wheel` (line 564),
`create_shortcuts` (line 572), and the warning logged when shortcut creation
fails (line 574). -/
inductive Event where
  | promptOverwrite
  | checkCondaProbe
  | condaEnvRemove
  | rmtreeInstallDir
  | promptInstallMiniconda
  | installMinicondaStep
  | createCondaEnvStep
  | downloadWheelStep
  | installWheelStep
  | createShortcutsStep
  | warnShortcutsFailed
  deriving DecidableEq, Repr

/-- Unhandled Python exceptions that can escape `main`: an `OSError` (or
kindred exception) from a bare external call outside any `try` — the
`os.makedirs` calls of install.py lines 481 and 554, the `os.listdir` of
line 488, the `conda env remove` subprocess of line 507 — and an
`EOFError` / `KeyboardInterrupt` from a bare `input()` call (lines 492 and
526). -/
inductive PyError where
  | osError
  | inputError
  deriving DecidableEq, Repr

/-- Outcome of one run of `main`: `exit` is `.ok code` when `main` returns
the integer `code`, and `.error e` when a Python exception escapes; `trace`
is the ordered list of pipeline actions performed; `msg` is the last fatal
message logged before a `return 1` (and `none` otherwise); `fs` is the final
top-level contents of the installation directory (`none` when it was never
created). -/
structure RunOutcome where
  exit : Except PyError Nat
  trace : List Event
  msg : Option String
  fs : Option (List String)
  deriving Repr

/-- The parsed command-line arguments of install.py lines 447-471:
`--install-dir`, `--no-shortcuts`, `-y` alias `--yes`. -/
structure Args where
  installDir : String
  noShortcuts : Bool
  yes : Bool
  deriving DecidableEq, Repr

/-- Oracle world for one run of `main` (install.py lines 445-584):
`initialDir` is the top-level contents of the installation directory at
invocation (`none` when absent); `makedirsRaises` — the `os.makedirs` of
line 481 raises; `overwriteInput` — the answer typed at the overwrite prompt
of line 492 (`none` when `input()` raises); `condaProbe` — the `check_conda`
lookup result, deterministic within the run; `condaEnvRemoveExit` — exit
code of `conda env remove` (line 507, invoked with `check=False`);
`rmtreeRaises` — `shutil.rmtree` of line 511 raises; `minicondaInput` — the
answer at the Miniconda prompt of line 526; `miniconda` — oracle for
`install_miniconda`; `condaCreateExit` — exit code of `conda create` (`none`
for an exception); `makedirsWheelsRaises` — the `os.makedirs` of line 554
raises; `fetch` — oracle for `download_latest_wheel`; `wheelIsFile` — the
`os.path.isfile` check of line 559; `pipExit` — exit code of the pip
subprocess (`none` for an exception); `shortcutsRaises` — `create_shortcuts`
raises internally and returns `False`. -/
structure World where
  initialDir : Option (List String)
  makedirsRaises : Bool
  overwriteInput : Option String
  condaProbe : Option String
  condaEnvRemoveExit : Int
  rmtreeRaises : Bool
  minicondaInput : Option String
  miniconda : MinicondaEnv
  condaCreateExit : Option Int
  makedirsWheelsRaises : Bool
  fetch : FetchEnv
  wheelIsFile : Bool
  pipExit : Option Int
  shortcutsRaises : Bool
  deriving Repr

/-- Add a directory entry if not already present (`os.makedirs` /
`conda create -p` effect on the parent directory's listing). -/
def insertEntry (s : String) (l : List String) : List String :=
  if s ∈ l then l else s :: l

/-- Steps 3-6 of `main` (install.py lines 538-584), entered with a resolved
conda executable: create the conda environment at
`install_dir/amd_ai_ux_env` (fatal on failure, line 542-544), create the
wheels directory (line 554, bare `os.makedirs`), download the wheel (fatal
when `None` or not a file, lines 557-561), pip-install it (fatal on failure,
lines 564-568), then optionally create shortcuts, whose failure is only a
logged warning (lines 571-574), and return 0. -/
def stepsFromEnv (args : Args) (w : World) (contents : List String)
    (tr : List Event) (_conda_path : String) : RunOutcome :=
  if create_conda_env w.condaCreateExit then
    if w.makedirsWheelsRaises then
      ⟨Except.error PyError.osError, tr ++ [Event.createCondaEnvStep], none,
        some (insertEntry CONDA_ENV_NAME contents)⟩
    else
      match download_latest_wheel w.fetch (args.installDir ++ "/wheels") none with
      | some _wheel_path =>
        if w.wheelIsFile then
          if install_wheel w.pipExit then
            if args.noShortcuts then
              ⟨Except.ok 0,
                tr ++ [Event.createCondaEnvStep, Event.downloadWheelStep,
                  Event.installWheelStep], none,
                some (insertEntry "wheels" (insertEntry CONDA_ENV_NAME contents))⟩
            else
              if create_shortcuts w.shortcutsRaises then
                ⟨Except.ok 0,
                  tr ++ [Event.createCondaEnvStep, Event.downloadWheelStep,
                    Event.installWheelStep, Event.createShortcutsStep], none,
                  some (insertEntry "wheels" (insertEntry CONDA_ENV_NAME contents))⟩
              else
                ⟨Except.ok 0,
                  tr ++ [Event.createCondaEnvStep, Event.downloadWheelStep,
                    Event.installWheelStep, Event.createShortcutsStep,
                    Event.warnShortcutsFailed], none,
                  some (insertEntry "wheels" (insertEntry CONDA_ENV_NAME contents))⟩
          else
            ⟨Except.ok 1,
              tr ++ [Event.createCondaEnvStep, Event.downloadWheelStep,
                Event.installWheelStep],
              some "Failed to install Open WebUI wheel file. Please check the logs for details.",
              some (insertEntry "wheels" (insertEntry CONDA_ENV_NAME contents))⟩
        else
          ⟨Except.ok 1,
            tr ++ [Event.createCondaEnvStep, Event.downloadWheelStep],
            some "Failed to download Open WebUI wheel file. Please check your internet connection and try again.",
            some (insertEntry "wheels" (insertEntry CONDA_ENV_NAME contents))⟩
      | none =>
        ⟨Except.ok 1,
          tr ++ [Event.createCondaEnvStep, Event.downloadWheelStep],
          some "Failed to download Open WebUI wheel file. Please check your internet connection and try again.",
          some (insertEntry "wheels" (insertEntry CONDA_ENV_NAME contents))⟩
  else
    ⟨Except.ok 1, tr ++ [Event.createCondaEnvStep],
      some "Failed to create the Python environment. Installation will be aborted.",
      some contents⟩

/-- The Miniconda installation step of `main` (install.py lines 531-536):
invoke `install_miniconda`, fatal on failure, otherwise continue with the
returned conda executable. -/
def minicondaStep (args : Args) (w : World) (contents : List String)
    (tr : List Event) : RunOutcome :=
  match install_miniconda w.miniconda args.installDir with
  | (true, conda_path) =>
    stepsFromEnv args w contents (tr ++ [Event.installMinicondaStep])
      (conda_path.getD "")
  | (false, _) =>
    ⟨Except.ok 1, tr ++ [Event.installMinicondaStep],
      some "Failed to install Miniconda. Installation will be aborted.",
      some contents⟩

/-- Step 2 onward of `main` (install.py lines 519-584): probe for conda; if
absent, prompt (unless `--yes`) and install Miniconda; then continue with
environment provisioning and the rest of the pipeline. -/
def stepsFromConda (args : Args) (w : World) (contents : List String)
    (tr : List Event) : RunOutcome :=
  match check_conda w.condaProbe with
  | (true, conda_path) =>
    stepsFromEnv args w contents (tr ++ [Event.checkCondaProbe])
      (conda_path.getD "")
  | (false, _) =>
    if args.yes then
      minicondaStep args w contents (tr ++ [Event.checkCondaProbe])
    else
      match w.minicondaInput with
      | none =>
        ⟨Except.error PyError.inputError,
          tr ++ [Event.checkCondaProbe, Event.promptInstallMiniconda], none,
          some contents⟩
      | some ans =>
        if strLower ans = "y" then
          minicondaStep args w contents
            (tr ++ [Event.checkCondaProbe, Event.promptInstallMiniconda])
        else
          ⟨Except.ok 1,
            tr ++ [Event.checkCondaProbe, Event.promptInstallMiniconda],
            some "Installation cancelled by user", some contents⟩

/-- The best-effort conda environment removal inside pre-flight cleanup
(install.py lines 502-507): when `install_dir/amd_ai_ux_env` exists, probe
for conda and, if found, run `conda env remove` with `check=False`; its exit
code is never inspected, only the directory listing may change. -/
def cleanupEnvRemove (w : World) (contents : List String) (tr : List Event) :
    List Event × List String :=
  if CONDA_ENV_NAME ∈ contents then
    match check_conda w.condaProbe with
    | (true, _) =>
      (tr ++ [Event.checkCondaProbe, Event.condaEnvRemove],
        if w.condaEnvRemoveExit == 0 then contents.erase CONDA_ENV_NAME
        else contents)
    | (false, _) => (tr ++ [Event.checkCondaProbe], contents)
  else (tr, contents)

/-- The destructive part of pre-flight cleanup (install.py lines 499-517):
best-effort conda environment removal, then `shutil.rmtree` of the
installation directory followed by a recreating `os.makedirs`; an exception
from `rmtree` is caught and fatal (return 1) with the close-applications
message; on success the pipeline continues on an empty directory. -/
def doCleanup (args : Args) (w : World) (contents : List String)
    (tr : List Event) : RunOutcome :=
  match cleanupEnvRemove w contents tr with
  | (tr2, contents2) =>
    if w.rmtreeRaises then
      ⟨Except.ok 1, tr2 ++ [Event.rmtreeInstallDir],
        some "Please close any applications using AMD AI UX and try again",
        some contents2⟩
    else
      stepsFromConda args w [] (tr2 ++ [Event.rmtreeInstallDir])

/-- `main` (install.py lines 445-584).  After argument parsing,
`os.makedirs(install_dir, exist_ok=True)` runs bare (line 481; an `OSError`
escapes).  The directory now exists, so the pre-flight check of line 488
reduces to its listing being non-empty: if so, prompt for confirmation
unless `--yes` (a non-"y" answer, case-insensitively, is fatal with exit 1
and no destructive action), then perform the cleanup; otherwise fall through
directly to step 2.

This function models the runs in which the two remaining bare external calls
of the orchestrator — the `os.listdir(install_dir)` of line 488 and the
`subprocess.run` invoking `conda env remove` at line 507 — return normally;
`mainB` below extends it with the runs where they raise. -/
def main (args : Args) (w : World) : RunOutcome :=
  if w.makedirsRaises then
    ⟨Except.error PyError.osError, [], none, w.initialDir⟩
  else
    if (w.initialDir.getD []).isEmpty then
      stepsFromConda args w (w.initialDir.getD []) []
    else
      if args.yes then
        doCleanup args w (w.initialDir.getD []) []
      else
        match w.overwriteInput with
        | none =>
          ⟨Except.error PyError.inputError, [Event.promptOverwrite], none,
            some (w.initialDir.getD [])⟩
        | some ans =>
          if strLower ans = "y" then
            doCleanup args w (w.initialDir.getD []) [Event.promptOverwrite]
          else
            ⟨Except.ok 1, [Event.promptOverwrite],
              some "Installation cancelled by user",
              some (w.initialDir.getD [])⟩

/-- Oracle for the two remaining bare external calls in the orchestrator's
own body: `listdirRaises` — the `os.listdir(install_dir)` of install.py line
488 raises (it runs outside any `try`; e.g. an existing directory without
read permission, on which `os.makedirs(..., exist_ok=True)` succeeds
silently); `envRemoveRaises` — the `subprocess.run` invoking
`conda env remove` at line 507 raises (its `check=False` suppresses only
non-zero exit codes, not exceptions such as `FileNotFoundError`). -/
structure BareCalls where
  listdirRaises : Bool
  envRemoveRaises : Bool
  deriving DecidableEq, Repr

/-- `doCleanup` extended with the raise path of the bare `subprocess.run` of
install.py line 507: that call is reached exactly when the conda environment
directory exists and the conda probe succeeded, and an exception from it
escapes `main` after the probe and the attempted removal. -/
def doCleanupB (args : Args) (w : World) (b : BareCalls)
    (contents : List String) (tr : List Event) : RunOutcome :=
  if CONDA_ENV_NAME ∈ contents ∧ w.condaProbe.isSome = true ∧
      b.envRemoveRaises = true then
    ⟨Except.error PyError.osError,
      tr ++ [Event.checkCondaProbe, Event.condaEnvRemove], none, some contents⟩
  else
    doCleanup args w contents tr

/-- The full orchestrator: `main` (install.py lines 445-584) together with
the raise paths of every bare external call in its own body — the
`os.makedirs` calls (modelled in `World`), the `os.listdir` of line 488 and
the `conda env remove` subprocess of line 507 (modelled in `BareCalls`), and
the `input()` prompts.  `mainB args w ⟨false, false⟩ = main args w`. -/
def mainB (args : Args) (w : World) (b : BareCalls) : RunOutcome :=
  if w.makedirsRaises then
    ⟨Except.error PyError.osError, [], none, w.initialDir⟩
  else if b.listdirRaises = true then
    ⟨Except.error PyError.osError, [], none, some (w.initialDir.getD [])⟩
  else
    if (w.initialDir.getD []).isEmpty then
      stepsFromConda args w (w.initialDir.getD []) []
    else
      if args.yes then
        doCleanupB args w b (w.initialDir.getD []) []
      else
        match w.overwriteInput with
        | none =>
          ⟨Except.error PyError.inputError, [Event.promptOverwrite], none,
            some (w.initialDir.getD [])⟩
        | some ans =>
          if strLower ans = "y" then
            doCleanupB args w b (w.initialDir.getD []) [Event.promptOverwrite]
          else
            ⟨Except.ok 1, [Event.promptOverwrite],
              some "Installation cancelled by user",
              some (w.initialDir.getD [])⟩

/-- Every event in the trace of `stepsFromEnv` is either inherited from the
accumulator or one of the post-cleanup pipeline events. -/
theorem stepsFromEnv_trace_mem (args : Args) (w : World) (contents : List String)
    (tr : List Event) (p : String) (e : Event) :
    e ∈ (stepsFromEnv args w contents tr p).trace →
    e ∈ tr ∨ e = Event.createCondaEnvStep ∨ e = Event.downloadWheelStep ∨
      e = Event.installWheelStep ∨ e = Event.createShortcutsStep ∨
      e = Event.warnShortcutsFailed := by
  unfold stepsFromEnv
  repeat' split
  all_goals intro h
  all_goals simp_all [List.mem_append]
  all_goals tauto

/-- Every event in the trace of `minicondaStep` is inherited or a
post-cleanup pipeline event. -/
theorem minicondaStep_trace_mem (args : Args) (w : World) (contents : List String)
    (tr : List Event) (e : Event) :
    e ∈ (minicondaStep args w contents tr).trace →
    e ∈ tr ∨ e = Event.installMinicondaStep ∨ e = Event.createCondaEnvStep ∨
      e = Event.downloadWheelStep ∨ e = Event.installWheelStep ∨
      e = Event.createShortcutsStep ∨ e = Event.warnShortcutsFailed := by
  unfold minicondaStep
  split
  · intro h
    rcases stepsFromEnv_trace_mem _ _ _ _ _ _ h with h' | h' | h' | h' | h' | h'
    · rcases List.mem_append.mp h' with h'' | h''
      · exact Or.inl h''
      · simp at h''
        tauto
    all_goals tauto
  · intro h
    simp_all [List.mem_append]
    tauto

/-- Every event in the trace of `stepsFromConda` is inherited or a
post-cleanup pipeline event. -/
theorem stepsFromConda_trace_mem (args : Args) (w : World) (contents : List String)
    (tr : List Event) (e : Event) :
    e ∈ (stepsFromConda args w contents tr).trace →
    e ∈ tr ∨ e = Event.checkCondaProbe ∨ e = Event.promptInstallMiniconda ∨
      e = Event.installMinicondaStep ∨ e = Event.createCondaEnvStep ∨
      e = Event.downloadWheelStep ∨ e = Event.installWheelStep ∨
      e = Event.createShortcutsStep ∨ e = Event.warnShortcutsFailed := by
  unfold stepsFromConda
  repeat' split
  all_goals intro h
  · rcases stepsFromEnv_trace_mem _ _ _ _ _ _ h with h' | h' | h' | h' | h' | h'
    · rcases List.mem_append.mp h' with h'' | h''
      · exact Or.inl h''
      · simp at h''
        tauto
    all_goals tauto
  · rcases minicondaStep_trace_mem _ _ _ _ _ h with h' | h' | h' | h' | h' | h' | h'
    · rcases List.mem_append.mp h' with h'' | h''
      · exact Or.inl h''
      · simp at h''
        tauto
    all_goals tauto
  · simp_all [List.mem_append]; tauto
  · rcases minicondaStep_trace_mem _ _ _ _ _ h with h' | h' | h' | h' | h' | h' | h'
    · rcases List.mem_append.mp h' with h'' | h''
      · exact Or.inl h''
      · simp at h''
        tauto
    all_goals tauto
  · simp_all [List.mem_append]; tauto

/-- The cleanup env-removal only appends the probe and env-remove events. -/
theorem cleanupEnvRemove_fst (w : World) (c : List String) (tr : List Event) :
    (cleanupEnvRemove w c tr).1 = tr ∨
      (cleanupEnvRemove w c tr).1 = tr ++ [Event.checkCondaProbe] ∨
      (cleanupEnvRemove w c tr).1 =
        tr ++ [Event.checkCondaProbe, Event.condaEnvRemove] := by
  unfold cleanupEnvRemove
  repeat' split
  all_goals simp_all

/-- With the wheels-directory creation not raising, `stepsFromEnv` always
returns the exit code 0 or 1. -/
theorem stepsFromEnv_exit_total (args : Args) (w : World) (contents : List String)
    (tr : List Event) (p : String) (h : w.makedirsWheelsRaises = false) :
    (stepsFromEnv args w contents tr p).exit = Except.ok 0 ∨
      (stepsFromEnv args w contents tr p).exit = Except.ok 1 := by
  unfold stepsFromEnv
  repeat' split
  all_goals simp_all

/-- With the wheels-directory creation not raising, `minicondaStep` always
returns the exit code 0 or 1. -/
theorem minicondaStep_exit_total (args : Args) (w : World) (contents : List String)
    (tr : List Event) (h : w.makedirsWheelsRaises = false) :
    (minicondaStep args w contents tr).exit = Except.ok 0 ∨
      (minicondaStep args w contents tr).exit = Except.ok 1 := by
  unfold minicondaStep
  split
  · exact stepsFromEnv_exit_total _ _ _ _ _ h
  · simp

/-- With the wheels-directory creation not raising and the Miniconda prompt
answered, `stepsFromConda` always returns the exit code 0 or 1. -/
theorem stepsFromConda_exit_total (args : Args) (w : World) (contents : List String)
    (tr : List Event) (h : w.makedirsWheelsRaises = false)
    (hm : w.minicondaInput.isSome) :
    (stepsFromConda args w contents tr).exit = Except.ok 0 ∨
      (stepsFromConda args w contents tr).exit = Except.ok 1 := by
  unfold stepsFromConda
  repeat' split
  · exact stepsFromEnv_exit_total _ _ _ _ _ h
  · exact minicondaStep_exit_total _ _ _ _ h
  · simp_all
  · exact minicondaStep_exit_total _ _ _ _ h
  · simp

/-- With the wheels-directory creation not raising and the Miniconda prompt
answered, `doCleanup` always returns the exit code 0 or 1. -/
theorem doCleanup_exit_total (args : Args) (w : World) (contents : List String)
    (tr : List Event) (h : w.makedirsWheelsRaises = false)
    (hm : w.minicondaInput.isSome) :
    (doCleanup args w contents tr).exit = Except.ok 0 ∨
      (doCleanup args w contents tr).exit = Except.ok 1 := by
  unfold doCleanup
  repeat' split
  · simp
  · exact stepsFromConda_exit_total _ _ _ _ h hm

/-- Claim C1: for every run where the target installation directory is empty
or absent at invocation, the pre-flight cleanup performed by `main` is a
no-op — no confirmation prompt appears and no deletion (neither
`conda env remove` nor `shutil.rmtree`) occurs. -/
theorem claim_C1_empty_dir_cleanup_noop (args : Args) (w : World)
    (h : w.initialDir = none ∨ w.initialDir = some []) :
    Event.promptOverwrite ∉ (main args w).trace ∧
      Event.rmtreeInstallDir ∉ (main args w).trace ∧
      Event.condaEnvRemove ∉ (main args w).trace := by
  have hempty : (w.initialDir.getD []).isEmpty = true := by
    rcases h with h | h <;> simp [h]
  unfold main
  split
  · simp
  · refine ⟨?_, ?_, ?_⟩
    all_goals intro hc
    all_goals have hm := stepsFromConda_trace_mem _ _ _ _ _ hc
    all_goals simp at hm

/-- Claim C2: with a non-empty target directory and `assume_yes` false, a
declined confirmation makes `main` return exit code 1, performs only the
prompt (no other side effect), and leaves the directory contents unchanged. -/
theorem claim_C2_declined_confirmation (args : Args) (w : World)
    (c : List String) (ans : String)
    (hdir : w.initialDir = some c) (hne : c ≠ [])
    (hmk : w.makedirsRaises = false) (hyes : args.yes = false)
    (hin : w.overwriteInput = some ans) (hans : strLower ans ≠ "y") :
    main args w = ⟨Except.ok 1, [Event.promptOverwrite],
      some "Installation cancelled by user", some c⟩ := by
  unfold main
  rw [if_neg (by simp [hmk]), hdir]
  simp only [Option.getD_some]
  rw [if_neg (by simp [List.isEmpty_iff, hne]), if_neg (by simp [hyes]), hin]
  simp [hans]

/-- With the Miniconda prompt answered and the wheels-directory creation not
raising, `main` always returns the exit code 0 or 1 — the totality of the
orchestrator on the runs in which its bare listdir/env-remove calls return
normally. -/
theorem main_exit_total (args : Args) (w : World)
    (h1 : w.makedirsRaises = false) (h2 : w.makedirsWheelsRaises = false)
    (h3 : w.overwriteInput.isSome) (h4 : w.minicondaInput.isSome) :
    (main args w).exit = Except.ok 0 ∨ (main args w).exit = Except.ok 1 := by
  unfold main
  rw [if_neg (by simp [h1])]
  split
  · exact stepsFromConda_exit_total _ _ _ _ h2 h4
  · split
    · exact doCleanup_exit_total _ _ _ _ h2 h4
    · split
      · simp_all
      · split
        · exact doCleanup_exit_total _ _ _ _ h2 h4
        · simp

/-- `doCleanupB` coincides with `doCleanup` when the env-removal subprocess
does not raise. -/
theorem doCleanupB_ok (args : Args) (w : World) (contents : List String)
    (tr : List Event) :
    doCleanupB args w ⟨false, false⟩ contents tr =
      doCleanup args w contents tr := by
  unfold doCleanupB
  rw [if_neg (by simp)]

/-- `mainB` coincides with `main` when neither bare call raises. -/
theorem mainB_no_bare_raise (args : Args) (w : World) :
    mainB args w ⟨false, false⟩ = main args w := by
  by_cases hmk : w.makedirsRaises = true
  · unfold mainB main
    rw [if_pos hmk, if_pos hmk]
  · unfold mainB main
    rw [if_neg hmk, if_neg hmk, if_neg (by simp)]
    simp only [doCleanupB_ok]

/-- A world whose installation directory exists but cannot be listed: the
recreating `os.makedirs` succeeds, then the bare `os.listdir` raises. -/
def wUnreadable : World :=
  ⟨some ["old"], false, some "y", none, 0, false, some "y",
    ⟨false, "/home/u", false, 0⟩, none, false, ⟨false, 200, [], 200, 0⟩,
    false, none, false⟩

/-- Claim C3 counterexample: even with both `os.makedirs` calls succeeding
and every prompt answered, the bare `os.listdir(install_dir)` of install.py
line 488 can raise (an existing directory without read permission, on which
`os.makedirs(..., exist_ok=True)` succeeds silently), and the exception
escapes `main` — the run ends with an unhandled error, not with a defined
exit code. -/
theorem claim_C3_counterexample :
    (mainB ⟨"/home/u/AMD_AI_UX", false, false⟩ wUnreadable ⟨true, false⟩).exit =
      Except.error PyError.osError ∧
    ∀ c : Nat,
      (mainB ⟨"/home/u/AMD_AI_UX", false, false⟩ wUnreadable
          ⟨true, false⟩).exit ≠ Except.ok c := by
  constructor
  · rfl
  · intro c hc
    rw [show (mainB ⟨"/home/u/AMD_AI_UX", false, false⟩ wUnreadable
        ⟨true, false⟩).exit = Except.error PyError.osError from rfl] at hc
    exact Except.noConfusion hc

/-- Claim C3, amended: provided the bare external calls in `main`'s own body
do not raise — the `os.makedirs` of install.py lines 481 and 554, the
`os.listdir` of line 488, the `conda env remove` subprocess of line 507, and
the `input()` prompts of lines 492 and 526 (which must receive an answer) —
`main` always returns a defined exit code, 0 or 1; every failure inside the
pipeline steps themselves is caught and converted to a return code. -/
theorem claim_C3_defined_exit (args : Args) (w : World) (b : BareCalls)
    (h1 : w.makedirsRaises = false) (h2 : w.makedirsWheelsRaises = false)
    (h3 : w.overwriteInput.isSome) (h4 : w.minicondaInput.isSome)
    (h5 : b.listdirRaises = false) (h6 : b.envRemoveRaises = false) :
    (mainB args w b).exit = Except.ok 0 ∨
      (mainB args w b).exit = Except.ok 1 := by
  have hb : b = ⟨false, false⟩ := by
    rcases b with ⟨x, y⟩
    simp_all
  rw [hb, mainB_no_bare_raise]
  exact main_exit_total args w h1 h2 h3 h4

/-- `doCleanup` written with explicit projections of the env-removal
result. -/
theorem doCleanup_eq (args : Args) (w : World) (c : List String)
    (tr : List Event) :
    doCleanup args w c tr =
      if w.rmtreeRaises then
        ⟨Except.ok 1, (cleanupEnvRemove w c tr).1 ++ [Event.rmtreeInstallDir],
          some "Please close any applications using AMD AI UX and try again",
          some (cleanupEnvRemove w c tr).2⟩
      else
        stepsFromConda args w []
          ((cleanupEnvRemove w c tr).1 ++ [Event.rmtreeInstallDir]) := by
  rfl

/-- When the directory is non-empty and the overwrite confirmation is
granted (or `--yes` was given), `main` runs the destructive cleanup, with
either no prior event or only the confirmation prompt. -/
theorem main_proceeds_to_cleanup (args : Args) (w : World) (c : List String)
    (hdir : w.initialDir = some c) (hne : c ≠ [])
    (hmk : w.makedirsRaises = false)
    (hproceed : args.yes = true ∨
      ∃ s, w.overwriteInput = some s ∧ strLower s = "y") :
    main args w = doCleanup args w c [] ∨
      main args w = doCleanup args w c [Event.promptOverwrite] := by
  unfold main
  rw [if_neg (by simp [hmk]), hdir]
  simp only [Option.getD_some]
  rw [if_neg (by simp [List.isEmpty_iff, hne])]
  by_cases hy : args.yes = true
  · rw [if_pos hy]
    exact Or.inl rfl
  · rw [if_neg hy]
    rcases hproceed with hy2 | ⟨s, hs, hsy⟩
    · exact absurd hy2 hy
    · rw [hs]
      simp only [hsy, if_pos rfl]
      exact Or.inr rfl

/-- Claim C4: with `--yes` and a non-empty directory, `main` deletes the
installation directory and recreates it empty strictly before the
environment-provisioning step runs: no `createCondaEnvStep` precedes the
`rmtree`, and when the deletion succeeds the remaining pipeline is started
on the recreated, empty directory. -/
theorem claim_C4_cleanup_precedes_provisioning (args : Args) (w : World)
    (c : List String) (hdir : w.initialDir = some c) (hne : c ≠ [])
    (hmk : w.makedirsRaises = false) (hyes : args.yes = true) :
    ∃ pre, Event.createCondaEnvStep ∉ pre ∧
      (w.rmtreeRaises = true →
        (main args w).exit = Except.ok 1 ∧
        (main args w).trace = pre ++ [Event.rmtreeInstallDir]) ∧
      (w.rmtreeRaises = false →
        main args w = stepsFromConda args w [] (pre ++ [Event.rmtreeInstallDir])) := by
  rcases main_proceeds_to_cleanup args w c hdir hne hmk (Or.inl hyes) with hm | hm
  · refine ⟨(cleanupEnvRemove w c []).1, ?_, ?_, ?_⟩
    · rcases cleanupEnvRemove_fst w c [] with h | h | h
      all_goals simp [h]
    · intro hr
      rw [hm, doCleanup_eq, if_pos hr]
      exact ⟨rfl, rfl⟩
    · intro hr
      rw [hm, doCleanup_eq, if_neg (by simp [hr])]
  · refine ⟨(cleanupEnvRemove w c [Event.promptOverwrite]).1, ?_, ?_, ?_⟩
    · rcases cleanupEnvRemove_fst w c [Event.promptOverwrite] with h | h | h
      all_goals simp [h]
    · intro hr
      rw [hm, doCleanup_eq, if_pos hr]
      exact ⟨rfl, rfl⟩
    · intro hr
      rw [hm, doCleanup_eq, if_neg (by simp [hr])]

/-- Claim C5: during pre-flight cleanup a failing `conda env remove` never
aborts the run — for every world in which the directory deletion succeeds
(whatever the env-removal exit code) the pipeline continues past cleanup —
while a failing `shutil.rmtree` is fatal: exit code 1 with a message
instructing the user to close programs using the product. -/
theorem claim_C5_cleanup_failure_policy (args : Args) (w : World)
    (c : List String) (hdir : w.initialDir = some c) (hne : c ≠ [])
    (hmk : w.makedirsRaises = false)
    (hproceed : args.yes = true ∨
      ∃ s, w.overwriteInput = some s ∧ strLower s = "y") :
    (w.rmtreeRaises = false →
      ∃ tr, main args w = stepsFromConda args w [] tr) ∧
    (w.rmtreeRaises = true →
      (main args w).exit = Except.ok 1 ∧
      (main args w).msg =
        some "Please close any applications using AMD AI UX and try again") := by
  rcases main_proceeds_to_cleanup args w c hdir hne hmk hproceed with hm | hm
  all_goals rw [hm, doCleanup_eq]
  all_goals constructor
  all_goals intro hr
  · rw [if_neg (by simp [hr])]
    exact ⟨_, rfl⟩
  · rw [if_pos hr]
    exact ⟨rfl, rfl⟩
  · rw [if_neg (by simp [hr])]
    exact ⟨_, rfl⟩
  · rw [if_pos hr]
    exact ⟨rfl, rfl⟩

/-- The first asset whose name ends in ".whl" is found, whatever comes after
it and however many non-matching assets precede it. -/
theorem findWheelAsset_first (pre post : List Asset) (a : Asset)
    (hpre : ∀ b ∈ pre, strEndsWith b.name ".whl" = false)
    (ha : strEndsWith a.name ".whl" = true) :
    findWheelAsset (pre ++ a :: post) = some a := by
  induction pre with
  | nil => simp [findWheelAsset, List.find?, ha]
  | cons b bs ih =>
    have hb := hpre b (by simp)
    have ih' := ih (fun x hx => hpre x (by simp [hx]))
    simpa [findWheelAsset, List.find?, hb] using ih'

/-- Claim C6: asset selection is deterministic first-match in feed order —
whenever the feed is reachable and the download succeeds with a large enough
file, the artifact downloaded is the first asset whose name ends in ".whl",
and every later asset is ignored. -/
theorem claim_C6_first_wheel_asset (env : FetchEnv) (folder : String)
    (pre post : List Asset) (a : Asset)
    (hassets : env.assets = pre ++ a :: post)
    (hpre : ∀ b ∈ pre, strEndsWith b.name ".whl" = false)
    (ha : strEndsWith a.name ".whl" = true)
    (h200 : env.apiStatus = 200) (hnr : env.apiRaises = false)
    (hs : env.assetStatus = 200) (hsz : 10000 ≤ env.downloadedSize) :
    download_latest_wheel env folder none = some (folder ++ "/" ++ a.name) := by
  unfold download_latest_wheel
  rw [if_neg (by simp [hnr]), if_pos h200, hassets,
    findWheelAsset_first pre post a hpre ha]
  simp [hs, Nat.not_lt.mpr hsz]

/-- Claim C7: a downloaded artifact below the 10000-byte threshold is
rejected — `download_latest_wheel` returns no path even when the HTTP status
of the artifact download was 200 — and once the pipeline has reached the
acquisition step (environment provisioning succeeded, wheels directory
created), the run then exits with code 1. -/
theorem claim_C7_small_file_rejected :
    (∀ (env : FetchEnv) (folder : String) (fn : Option String),
      env.assetStatus = 200 → env.downloadedSize < 10000 →
      download_latest_wheel env folder fn = none) ∧
    (∀ (args : Args) (w : World) (contents : List String) (tr : List Event)
      (p : String),
      w.fetch.assetStatus = 200 → w.fetch.downloadedSize < 10000 →
      create_conda_env w.condaCreateExit = true →
      w.makedirsWheelsRaises = false →
      (stepsFromEnv args w contents tr p).exit = Except.ok 1) := by
  have h1 : ∀ (env : FetchEnv) (folder : String) (fn : Option String),
      env.assetStatus = 200 → env.downloadedSize < 10000 →
      download_latest_wheel env folder fn = none := by
    intro env folder fn hs hsz
    unfold download_latest_wheel
    repeat' split
    all_goals simp_all
  refine ⟨h1, ?_⟩
  intro args w contents tr p hs hsz hce hmw
  unfold stepsFromEnv
  rw [if_pos hce, if_neg (by simp [hmw]),
    h1 w.fetch (args.installDir ++ "/wheels") none hs hsz]

/-- When the pip installation fails, `stepsFromEnv` never reaches shortcut
creation, and whenever the installation step actually ran the exit code
is 1. -/
theorem stepsFromEnv_pip_fail (args : Args) (w : World) (contents : List String)
    (tr : List Event) (p : String) (hpip : install_wheel w.pipExit = false) :
    (Event.createShortcutsStep ∉ tr →
      Event.createShortcutsStep ∉ (stepsFromEnv args w contents tr p).trace) ∧
    (Event.installWheelStep ∉ tr →
      Event.installWheelStep ∈ (stepsFromEnv args w contents tr p).trace →
      (stepsFromEnv args w contents tr p).exit = Except.ok 1) := by
  unfold stepsFromEnv
  repeat' split
  all_goals simp_all [List.mem_append]

/-- `stepsFromEnv_pip_fail` lifted through the Miniconda step. -/
theorem minicondaStep_pip_fail (args : Args) (w : World) (contents : List String)
    (tr : List Event) (hpip : install_wheel w.pipExit = false) :
    (Event.createShortcutsStep ∉ tr →
      Event.createShortcutsStep ∉ (minicondaStep args w contents tr).trace) ∧
    (Event.installWheelStep ∉ tr →
      Event.installWheelStep ∈ (minicondaStep args w contents tr).trace →
      (minicondaStep args w contents tr).exit = Except.ok 1) := by
  unfold minicondaStep
  split
  · rename_i x conda_path heq
    have h := stepsFromEnv_pip_fail args w contents
      (tr ++ [Event.installMinicondaStep]) (conda_path.getD "") hpip
    constructor
    · intro h1
      exact h.1 (by simp [List.mem_append, h1])
    · intro h1 h2
      exact h.2 (by simp [List.mem_append, h1]) h2
  · constructor
    · intro h1
      simp [List.mem_append, h1]
    · intro h1 h2
      rfl

/-- `stepsFromEnv_pip_fail` lifted through the conda probing step. -/
theorem stepsFromConda_pip_fail (args : Args) (w : World) (contents : List String)
    (tr : List Event) (hpip : install_wheel w.pipExit = false) :
    (Event.createShortcutsStep ∉ tr →
      Event.createShortcutsStep ∉ (stepsFromConda args w contents tr).trace) ∧
    (Event.installWheelStep ∉ tr →
      Event.installWheelStep ∈ (stepsFromConda args w contents tr).trace →
      (stepsFromConda args w contents tr).exit = Except.ok 1) := by
  unfold stepsFromConda
  repeat' split
  · rename_i x conda_path heq
    have h := stepsFromEnv_pip_fail args w contents
      (tr ++ [Event.checkCondaProbe]) (conda_path.getD "") hpip
    constructor
    · intro h1
      exact h.1 (by simp [List.mem_append, h1])
    · intro h1 h2
      exact h.2 (by simp [List.mem_append, h1]) h2
  · have h := minicondaStep_pip_fail args w contents
      (tr ++ [Event.checkCondaProbe]) hpip
    constructor
    · intro h1
      exact h.1 (by simp [List.mem_append, h1])
    · intro h1 h2
      exact h.2 (by simp [List.mem_append, h1]) h2
  · constructor
    · intro h1
      simp [List.mem_append, h1]
    · intro h1 h2
      simp [List.mem_append, h1] at h2
  · have h := minicondaStep_pip_fail args w contents
      (tr ++ [Event.checkCondaProbe, Event.promptInstallMiniconda]) hpip
    constructor
    · intro h1
      exact h.1 (by simp [List.mem_append, h1])
    · intro h1 h2
      exact h.2 (by simp [List.mem_append, h1]) h2
  · constructor
    · intro h1
      simp [List.mem_append, h1]
    · intro h1 h2
      rfl

/-- `stepsFromEnv_pip_fail` lifted through the destructive cleanup. -/
theorem doCleanup_pip_fail (args : Args) (w : World) (contents : List String)
    (tr : List Event) (hpip : install_wheel w.pipExit = false) :
    (Event.createShortcutsStep ∉ tr →
      Event.createShortcutsStep ∉ (doCleanup args w contents tr).trace) ∧
    (Event.installWheelStep ∉ tr →
      Event.installWheelStep ∈ (doCleanup args w contents tr).trace →
      (doCleanup args w contents tr).exit = Except.ok 1) := by
  rw [doCleanup_eq]
  have hnc : ∀ e : Event, e ∉ tr → e = Event.promptOverwrite ∨
      e = Event.createShortcutsStep ∨ e = Event.installWheelStep →
      e ∉ (cleanupEnvRemove w contents tr).1 ++ [Event.rmtreeInstallDir] := by
    intro e he hor
    rcases cleanupEnvRemove_fst w contents tr with h | h | h
    all_goals rw [h]
    all_goals rcases hor with h2 | h2 | h2
    all_goals subst h2
    all_goals simp [List.mem_append, he]
  split
  · constructor
    · intro h1
      exact hnc _ h1 (by simp)
    · intro h1 h2
      exact absurd h2 (hnc _ h1 (by simp))
  · have h := stepsFromConda_pip_fail args w []
      ((cleanupEnvRemove w contents tr).1 ++ [Event.rmtreeInstallDir]) hpip
    constructor
    · intro h1
      exact h.1 (hnc _ h1 (by simp))
    · intro h1 h2
      exact h.2 (hnc _ h1 (by simp)) h2

/-- Claim C8: whenever the pip subprocess of artifact installation exits
with a non-zero code, shortcut registration is never invoked, and any run
that actually performed the installation step returns exit code 1. -/
theorem claim_C8_install_failure_no_shortcuts (args : Args) (w : World)
    (k : Int) (hk : w.pipExit = some k) (hk0 : k ≠ 0) :
    Event.createShortcutsStep ∉ (main args w).trace ∧
      (Event.installWheelStep ∈ (main args w).trace →
        (main args w).exit = Except.ok 1) := by
  have hpip : install_wheel w.pipExit = false := by
    rw [install_wheel.eq_def, hk]
    exact beq_eq_false_iff_ne.mpr hk0
  unfold main
  repeat' split
  · constructor
    · simp
    · intro h2
      simp at h2
  · exact ⟨(stepsFromConda_pip_fail args w _ [] hpip).1 (by simp),
      (stepsFromConda_pip_fail args w _ [] hpip).2 (by simp)⟩
  · exact ⟨(doCleanup_pip_fail args w _ [] hpip).1 (by simp),
      (doCleanup_pip_fail args w _ [] hpip).2 (by simp)⟩
  · constructor
    · simp
    · intro h2
      simp at h2
  · exact ⟨(doCleanup_pip_fail args w _ [Event.promptOverwrite] hpip).1 (by simp),
      (doCleanup_pip_fail args w _ [Event.promptOverwrite] hpip).2 (by simp)⟩
  · constructor
    · simp
    · intro h2
      simp at h2

/-- When every step succeeds but shortcut creation fails, `stepsFromEnv`
returns exit 0 and logs only a warning. -/
theorem stepsFromEnv_shortcut_warn (args : Args) (w : World)
    (contents : List String) (tr : List Event) (p : String)
    (hce : create_conda_env w.condaCreateExit = true)
    (hmw : w.makedirsWheelsRaises = false)
    (hdl : (download_latest_wheel w.fetch (args.installDir ++ "/wheels") none).isSome)
    (hwf : w.wheelIsFile = true)
    (hpip : install_wheel w.pipExit = true)
    (hns : args.noShortcuts = false)
    (hsc : w.shortcutsRaises = true) :
    (stepsFromEnv args w contents tr p).exit = Except.ok 0 ∧
      Event.warnShortcutsFailed ∈ (stepsFromEnv args w contents tr p).trace := by
  obtain ⟨path, hpath⟩ := Option.isSome_iff_exists.mp hdl
  unfold stepsFromEnv
  rw [if_pos hce, if_neg (by simp [hmw]), hpath]
  rw [if_pos hwf, if_pos hpip, if_neg (by simp [hns]),
    if_neg (by simp [create_shortcuts, hsc])]
  exact ⟨rfl, by simp [List.mem_append]⟩

/-- `stepsFromEnv_shortcut_warn` lifted through a successful Miniconda
installation. -/
theorem minicondaStep_shortcut_warn (args : Args) (w : World)
    (contents : List String) (tr : List Event)
    (hmc : (install_miniconda w.miniconda args.installDir).1 = true)
    (hce : create_conda_env w.condaCreateExit = true)
    (hmw : w.makedirsWheelsRaises = false)
    (hdl : (download_latest_wheel w.fetch (args.installDir ++ "/wheels") none).isSome)
    (hwf : w.wheelIsFile = true)
    (hpip : install_wheel w.pipExit = true)
    (hns : args.noShortcuts = false)
    (hsc : w.shortcutsRaises = true) :
    (minicondaStep args w contents tr).exit = Except.ok 0 ∧
      Event.warnShortcutsFailed ∈ (minicondaStep args w contents tr).trace := by
  unfold minicondaStep
  split
  · exact stepsFromEnv_shortcut_warn args w contents _ _
      hce hmw hdl hwf hpip hns hsc
  · rename_i x snd heq
    rw [heq] at hmc
    simp at hmc

/-- When step 2 succeeds — conda already on the PATH, or absent but
Miniconda installing successfully after `--yes` or a confirmed prompt — and
steps 3 through 5 succeed while shortcut creation fails, the post-cleanup
pipeline returns 0 and records the warning. -/
theorem stepsFromConda_shortcut_warn (args : Args) (w : World)
    (contents : List String) (tr : List Event)
    (hconda : w.condaProbe.isSome ∨
      ((install_miniconda w.miniconda args.installDir).1 = true ∧
        (args.yes = true ∨ ∃ s, w.minicondaInput = some s ∧ strLower s = "y")))
    (hce : create_conda_env w.condaCreateExit = true)
    (hmw : w.makedirsWheelsRaises = false)
    (hdl : (download_latest_wheel w.fetch (args.installDir ++ "/wheels") none).isSome)
    (hwf : w.wheelIsFile = true)
    (hpip : install_wheel w.pipExit = true)
    (hns : args.noShortcuts = false)
    (hsc : w.shortcutsRaises = true) :
    (stepsFromConda args w contents tr).exit = Except.ok 0 ∧
      Event.warnShortcutsFailed ∈ (stepsFromConda args w contents tr).trace := by
  rcases hp : w.condaProbe with _ | q
  · rcases hconda with hsome | ⟨hmc, hans⟩
    · rw [hp] at hsome
      simp at hsome
    · unfold stepsFromConda
      split
      · rename_i x cp heq
        rw [hp] at heq
        simp [check_conda] at heq
      · by_cases hy : args.yes = true
        · rw [if_pos hy]
          exact minicondaStep_shortcut_warn args w contents _
            hmc hce hmw hdl hwf hpip hns hsc
        · rw [if_neg hy]
          rcases hans with hy2 | ⟨s, hs, hsy⟩
          · exact absurd hy2 hy
          · rw [hs]
            simp only [hsy, if_pos rfl]
            exact minicondaStep_shortcut_warn args w contents _
              hmc hce hmw hdl hwf hpip hns hsc
  · unfold stepsFromConda
    rw [show check_conda w.condaProbe = (true, some q) by simp [check_conda, hp]]
    exact stepsFromEnv_shortcut_warn args w contents
      (tr ++ [Event.checkCondaProbe]) ((some q).getD "")
      hce hmw hdl hwf hpip hns hsc

/-- Claim C9: for every run in which steps 1 through 5 all succeed —
pre-flight cleanup a no-op on an empty directory or passed via `--yes` or an
interactive "y" with the deletion succeeding, the runtime manager already
present or Miniconda installing successfully (after `--yes` or a confirmed
prompt), and provisioning, download and installation succeeding — a failure
of shortcut registration leaves the overall exit code at 0; it shows up only
as the logged warning. -/
theorem claim_C9_shortcut_failure_nonfatal (args : Args) (w : World)
    (hmk : w.makedirsRaises = false)
    (hclean : w.initialDir.getD [] = [] ∨
      ((args.yes = true ∨ ∃ s, w.overwriteInput = some s ∧ strLower s = "y") ∧
        w.rmtreeRaises = false))
    (hconda : w.condaProbe.isSome ∨
      ((install_miniconda w.miniconda args.installDir).1 = true ∧
        (args.yes = true ∨ ∃ s, w.minicondaInput = some s ∧ strLower s = "y")))
    (hce : create_conda_env w.condaCreateExit = true)
    (hmw : w.makedirsWheelsRaises = false)
    (hdl : (download_latest_wheel w.fetch (args.installDir ++ "/wheels") none).isSome)
    (hwf : w.wheelIsFile = true)
    (hpip : install_wheel w.pipExit = true)
    (hns : args.noShortcuts = false)
    (hsc : w.shortcutsRaises = true) :
    (main args w).exit = Except.ok 0 ∧
      Event.warnShortcutsFailed ∈ (main args w).trace := by
  have key : ∀ (contents : List String) (tr : List Event),
      (stepsFromConda args w contents tr).exit = Except.ok 0 ∧
        Event.warnShortcutsFailed ∈ (stepsFromConda args w contents tr).trace :=
    fun contents tr => stepsFromConda_shortcut_warn args w contents tr hconda
      hce hmw hdl hwf hpip hns hsc
  by_cases hi : (w.initialDir.getD []).isEmpty = true
  · have hm : main args w = stepsFromConda args w (w.initialDir.getD []) [] := by
      unfold main
      rw [if_neg (by simp [hmk]), if_pos hi]
    rw [hm]
    exact key _ _
  · rcases hclean with hcl | ⟨hconf, hrm⟩
    · exact absurd (by simp [hcl]) hi
    · rcases hw : w.initialDir with _ | c
      · exact absurd (by simp [hw]) hi
      · have hne : c ≠ [] := by
          intro hc
          exact hi (by simp [hw, hc])
        rcases main_proceeds_to_cleanup args w c hw hne hmk hconf with hm | hm
        all_goals rw [hm, doCleanup_eq, if_neg (by simp [hrm])]
        all_goals exact key _ _

/-- Claim C10 counterexample: `install_miniconda` ignores its `install_dir`
argument and always installs to `~/miniconda3`, so when the target
installation directory is the user home itself, the runtime manager IS
placed inside the target installation directory — refuting the "never placed
inside" conjunct of the claim. -/
theorem claim_C10_counterexample :
    (install_miniconda ⟨false, "/home/user", false, 0⟩ "/home/user").2 =
      some "/home/user/miniconda3/bin/conda" ∧
    isInsideDir "/home/user"
      (minicondaTargetPath ⟨false, "/home/user", false, 0⟩ "/home/user") = true := by
  constructor
  · rfl
  · decide

/-- Claim C10, amended: `install_miniconda` installs the runtime manager at
the fixed user-home path `~/miniconda3` regardless of its `install_dir`
argument — for every two `install_dir` values the whole result (success flag
and conda executable path) is identical, the installation directory is
always `home ++ "/miniconda3"`, and it lies inside the target installation
directory exactly when the target is an ancestor of `~/miniconda3` (for
instance the home directory itself). -/
theorem claim_C10_fixed_home_path (env : MinicondaEnv) (d1 d2 : String) :
    install_miniconda env d1 = install_miniconda env d2 ∧
    minicondaTargetPath env d1 = env.home ++ "/miniconda3" ∧
    isInsideDir d1 (minicondaTargetPath env d1) =
      strStartsWith (env.home ++ "/miniconda3") (d1 ++ "/") :=
  ⟨rfl, rfl, rfl⟩

/-- Sample Miniconda oracle used by the concrete witness runs. -/
def mcSample : MinicondaEnv := ⟨false, "/home/u", false, 0⟩

/-- The spec's example feed: three assets, only the middle one a wheel, with
a comfortably large downloaded artifact. -/
def fetchSample : FetchEnv :=
  ⟨false, 200, [⟨"tool.tar.gz", "u1"⟩, ⟨"tool.whl", "u2"⟩, ⟨"readme.txt", "u3"⟩],
    200, 50000⟩

/-- A feed whose artifact downloads with HTTP 200 but only 500 bytes. -/
def fetchSmall : FetchEnv := ⟨false, 200, [⟨"tool.whl", "u2"⟩], 200, 500⟩

/-- Sample arguments: install to "/i", shortcuts on, no `--yes`. -/
def argsSample : Args := ⟨"/i", false, false⟩

/-- Sample arguments with `--yes`. -/
def argsYes : Args := ⟨"/i", false, true⟩

/-- A world whose installation directory starts out empty and where every
step succeeds. -/
def wEmptyDir : World :=
  ⟨some [], false, some "y", some "/usr/bin/conda", 0, false, some "y", mcSample,
    some 0, false, fetchSample, true, some 0, false⟩

/-- A world with a non-empty installation directory where both prompts are
answered "n". -/
def wDecline : World :=
  ⟨some ["old"], false, some "n", some "/usr/bin/conda", 0, false, some "n",
    mcSample, some 0, false, fetchSample, true, some 0, false⟩

/-- A world with a non-empty installation directory, confirmation granted,
and every step succeeding. -/
def wNonEmpty : World :=
  ⟨some ["old"], false, some "y", some "/usr/bin/conda", 0, false, some "y",
    mcSample, some 0, false, fetchSample, true, some 0, false⟩

/-- A world where the recursive deletion of the installation directory
raises. -/
def wRmtreeFail : World :=
  ⟨some ["old"], false, some "y", some "/usr/bin/conda", 3, true, some "y",
    mcSample, some 0, false, fetchSample, true, some 0, false⟩

/-- A world whose downloaded artifact is under the size threshold. -/
def wSmallWheel : World :=
  ⟨some [], false, some "y", some "/usr/bin/conda", 0, false, some "y", mcSample,
    some 0, false, fetchSmall, true, some 0, false⟩

/-- A world whose pip installation subprocess exits with code 2. -/
def wPipFail : World :=
  ⟨some [], false, some "y", some "/usr/bin/conda", 0, false, some "y", mcSample,
    some 0, false, fetchSample, true, some 2, false⟩

/-- A world exercising the broadened C9 paths: a non-empty directory whose
overwrite prompt is answered "Y", conda absent with Miniconda installing
after a confirmed prompt, and only shortcut creation failing. -/
def wInteractiveMiniconda : World :=
  ⟨some ["old"], false, some "Y", none, 0, false, some "y", mcSample,
    some 0, false, fetchSample, true, some 0, true⟩

/-- Witness for C1 at a concretely empty installation directory. -/
theorem claim_C1_witness :
    Event.promptOverwrite ∉ (main argsSample wEmptyDir).trace ∧
      Event.rmtreeInstallDir ∉ (main argsSample wEmptyDir).trace ∧
      Event.condaEnvRemove ∉ (main argsSample wEmptyDir).trace :=
  claim_C1_empty_dir_cleanup_noop argsSample wEmptyDir (Or.inr rfl)

/-- Witness for C2: a concrete declined run returns 1 having only
prompted. -/
theorem claim_C2_witness :
    main argsSample wDecline = ⟨Except.ok 1, [Event.promptOverwrite],
      some "Installation cancelled by user", some ["old"]⟩ :=
  claim_C2_declined_confirmation argsSample wDecline ["old"] "n" rfl (by decide)
    rfl rfl rfl (by decide)

/-- Witness for the amended C3 at a concrete declined run with no bare call
raising. -/
theorem claim_C3_witness :
    (mainB argsSample wDecline ⟨false, false⟩).exit = Except.ok 0 ∨
      (mainB argsSample wDecline ⟨false, false⟩).exit = Except.ok 1 :=
  claim_C3_defined_exit argsSample wDecline ⟨false, false⟩ rfl rfl rfl rfl
    rfl rfl

/-- Witness for C4 at a concrete `--yes` run over a non-empty directory. -/
theorem claim_C4_witness :
    ∃ pre, Event.createCondaEnvStep ∉ pre ∧
      (wNonEmpty.rmtreeRaises = true →
        (main argsYes wNonEmpty).exit = Except.ok 1 ∧
        (main argsYes wNonEmpty).trace = pre ++ [Event.rmtreeInstallDir]) ∧
      (wNonEmpty.rmtreeRaises = false →
        main argsYes wNonEmpty =
          stepsFromConda argsYes wNonEmpty [] (pre ++ [Event.rmtreeInstallDir])) :=
  claim_C4_cleanup_precedes_provisioning argsYes wNonEmpty ["old"] rfl
    (by decide) rfl rfl

/-- Witness for C5 at a concrete run whose directory deletion raises. -/
theorem claim_C5_witness :
    (wRmtreeFail.rmtreeRaises = false → ∃ tr,
      main argsYes wRmtreeFail = stepsFromConda argsYes wRmtreeFail [] tr) ∧
    (wRmtreeFail.rmtreeRaises = true →
      (main argsYes wRmtreeFail).exit = Except.ok 1 ∧
      (main argsYes wRmtreeFail).msg =
        some "Please close any applications using AMD AI UX and try again") :=
  claim_C5_cleanup_failure_policy argsYes wRmtreeFail ["old"] rfl (by decide)
    rfl (Or.inl rfl)

/-- Witness for C6 on the spec's example feed
["tool.tar.gz", "tool.whl", "readme.txt"]: the selected artifact is
"tool.whl". -/
theorem claim_C6_witness :
    download_latest_wheel fetchSample "/i/wheels" none =
      some ("/i/wheels" ++ "/" ++ "tool.whl") :=
  claim_C6_first_wheel_asset fetchSample "/i/wheels" [⟨"tool.tar.gz", "u1"⟩]
    [⟨"readme.txt", "u3"⟩] ⟨"tool.whl", "u2"⟩ rfl (by decide) (by decide) rfl
    rfl rfl (by decide)

/-- Witness for C7 on a concrete 500-byte artifact downloaded with
HTTP 200. -/
theorem claim_C7_witness :
    download_latest_wheel fetchSmall "/w" none = none ∧
      (stepsFromEnv argsSample wSmallWheel [] [] "/usr/bin/conda").exit =
        Except.ok 1 :=
  ⟨claim_C7_small_file_rejected.1 fetchSmall "/w" none rfl (by decide),
    claim_C7_small_file_rejected.2 argsSample wSmallWheel [] [] "/usr/bin/conda"
      rfl (by decide) rfl rfl⟩

/-- Witness for C8 at a concrete run whose pip subprocess exits 2. -/
theorem claim_C8_witness :
    Event.createShortcutsStep ∉ (main argsSample wPipFail).trace ∧
      (Event.installWheelStep ∈ (main argsSample wPipFail).trace →
        (main argsSample wPipFail).exit = Except.ok 1) :=
  claim_C8_install_failure_no_shortcuts argsSample wPipFail 2 rfl (by decide)

/-- Witness for C9 at a concrete run where cleanup is confirmed
interactively, Miniconda is installed after a confirmed prompt, and only
shortcut creation fails. -/
theorem claim_C9_witness :
    (main argsSample wInteractiveMiniconda).exit = Except.ok 0 ∧
      Event.warnShortcutsFailed ∈ (main argsSample wInteractiveMiniconda).trace :=
  claim_C9_shortcut_failure_nonfatal argsSample wInteractiveMiniconda rfl
    (Or.inr ⟨Or.inr ⟨"Y", rfl, by decide⟩, rfl⟩)
    (Or.inr ⟨by decide, Or.inr ⟨"y", rfl, by decide⟩⟩)
    rfl rfl (by decide) rfl rfl rfl rfl

end UxInstaller
